import Mathlib

/-!
Verification development for the trading-journal application (src/index.tsx).

The TypeScript source is shallowly embedded: JS numbers are modelled as ℚ
(with the JS value NaN modelled as `Option.none` where it can arise), JS
strings as `String`, and the React component state as an explicit `AppState`
record threaded through the event handlers. External collaborators (the
spreadsheet parser, the browser storage, and the hosted language model) are
modelled as explicit inputs to the handlers: a handler receives the value the
collaborator would have produced, with `Option.none` standing for a failed
call or an unparseable response.
-/

namespace JurnalAI

/-! ## Enumerations of the canonical Trade interface (src/index.tsx lines 6-22) -/

/-- The `position` union type: `'long' | 'short'`. -/
inductive Position
  | long
  | short
deriving DecidableEq

/-- The `status` union type: `'win' | 'loss' | 'breakeven'`. -/
inductive Status
  | win
  | loss
  | breakeven
deriving DecidableEq

/-- The `session` union type: `'asia' | 'london' | 'new york'`. -/
inductive Session
  | asia
  | london
  | newYork
deriving DecidableEq

/-- The `bias` union type: `'bullish' | 'bearish' | 'ranging'`. -/
inductive Bias
  | bullish
  | bearish
  | ranging
deriving DecidableEq

/-- The `newsImpact` union type: `'high' | 'medium' | 'low' | 'none'`. -/
inductive NewsImpact
  | high
  | medium
  | low
  | none
deriving DecidableEq

/-- The `grade` union type: `'A' | 'B' | 'C' | 'D' | 'F'`. -/
inductive Grade
  | A
  | B
  | C
  | D
  | F
deriving DecidableEq

/-- The canonical `Trade` interface (src/index.tsx lines 6-22), with the
TypeScript union types rendered as Lean inductives and the two Rupiah
amounts as rationals. -/
structure Trade where
  id : String
  date : String
  pair : String
  lotSize : ℚ
  position : Position
  status : Status
  pnl : ℚ
  commission : ℚ
  session : Session
  bias : Bias
  confirmSmt : Bool
  newsImpact : NewsImpact
  emotion : String
  grade : Grade
  notes : String
deriving DecidableEq

/-! ## Metrics Aggregator

Modelled from the spec: the numeric aggregation itself is performed by the
externally hosted model — src/index.tsx only states the formulas inside the
prompt of `runAiAnalysis` (lines 377-392), so the aggregator is not present
as executable code under src/. The definitions below follow the spec (§4.2)
and the prompt word for word: totalNetPnl is the sum of (pnl − commission),
totalProfit the sum of all positive pnl, totalLoss the sum of all negative
pnl reported as a positive number, totalCommissions the sum of commission. -/

/-- Modelled from the spec: `totalNetPnl` = Σ(pnl − commission) over all
trades (spec §4.2; prompt line 382). -/
def totalNetPnl (ts : List Trade) : ℚ :=
  (ts.map fun t => t.pnl - t.commission).sum

/-- Modelled from the spec: `totalProfit` = Σ(pnl) over trades with pnl > 0
(spec §4.2; prompt line 383). -/
def totalProfit (ts : List Trade) : ℚ :=
  ((ts.filter fun t => decide (0 < t.pnl)).map fun t => t.pnl).sum

/-- Modelled from the spec: `totalLoss` = Σ(pnl) over trades with pnl < 0,
reported as a positive magnitude (spec §4.2; prompt line 384). -/
def totalLoss (ts : List Trade) : ℚ :=
  -((ts.filter fun t => decide (t.pnl < 0)).map fun t => t.pnl).sum

/-- Modelled from the spec: `totalCommissions` = Σ(commission) over all
trades (spec §4.2). -/
def totalCommissions (ts : List Trade) : ℚ :=
  (ts.map fun t => t.commission).sum

/-- A concrete trade used in counterexamples: pnl 100000, commission 10000,
all other fields as the form defaults. -/
def sampleTrade : Trade :=
  { id := "1"
    date := "2024-01-01"
    pair := "EURUSD"
    lotSize := 1
    position := Position.long
    status := Status.win
    pnl := 100000
    commission := 10000
    session := Session.london
    bias := Bias.bullish
    confirmSmt := false
    newsImpact := NewsImpact.low
    emotion := ""
    grade := Grade.A
    notes := "" }

/-! ## Runtime journal model

TypeScript union types are erased at runtime. Trades that reach the journal
either come from the typed form (whose select widgets can only hold the
declared option values, modelled by the inductives above) or from
`JSON.parse` of the model response in `runAiImport` (src/index.tsx line 264),
which is untyped: the response schema (lines 247-257) declares every enum
field as a plain STRING and the handler applies no validation. The stored
record therefore carries the enum fields as raw strings, and `pnl` as
`Option ℚ` with `Option.none` standing for the JS value NaN, which
`parseFloat` can produce on the form path (line 513 has no fallback). -/

/-- The string value the form select stores for a `position` choice. -/
def Position.toStr : Position → String
  | Position.long => "long"
  | Position.short => "short"

/-- The string value the form select stores for a `status` choice. -/
def Status.toStr : Status → String
  | Status.win => "win"
  | Status.loss => "loss"
  | Status.breakeven => "breakeven"

/-- The string value the form select stores for a `session` choice. -/
def Session.toStr : Session → String
  | Session.asia => "asia"
  | Session.london => "london"
  | Session.newYork => "new york"

/-- The string value the form select stores for a `bias` choice. -/
def Bias.toStr : Bias → String
  | Bias.bullish => "bullish"
  | Bias.bearish => "bearish"
  | Bias.ranging => "ranging"

/-- The string value the form select stores for a `newsImpact` choice. -/
def NewsImpact.toStr : NewsImpact → String
  | NewsImpact.high => "high"
  | NewsImpact.medium => "medium"
  | NewsImpact.low => "low"
  | NewsImpact.none => "none"

/-- The string value the form select stores for a `grade` choice. -/
def Grade.toStr : Grade → String
  | Grade.A => "A"
  | Grade.B => "B"
  | Grade.C => "C"
  | Grade.D => "D"
  | Grade.F => "F"

/-- A journal record as it exists at runtime: enum fields are raw strings
(the TS types are erased and the import path stores the model response
unvalidated), `pnl` is `Option ℚ` with `Option.none` for NaN. -/
structure StoredTrade where
  id : String
  date : String
  pair : String
  lotSize : ℚ
  position : String
  status : String
  pnl : Option ℚ
  commission : ℚ
  session : String
  bias : String
  confirmSmt : Bool
  newsImpact : String
  emotion : String
  grade : String
  notes : String
deriving DecidableEq

/-- A stored trade satisfies the declared union types of the `Trade`
interface on every enum field. -/
def validEnums (t : StoredTrade) : Bool :=
  ["long", "short"].contains t.position &&
  ["win", "loss", "breakeven"].contains t.status &&
  ["asia", "london", "new york"].contains t.session &&
  ["bullish", "bearish", "ranging"].contains t.bias &&
  ["high", "medium", "low", "none"].contains t.newsImpact &&
  ["A", "B", "C", "D", "F"].contains t.grade

/-- One trade record of the parsed model response in `runAiImport`
(src/index.tsx line 264): the response schema at lines 247-257 declares the
enum fields as plain strings and the numeric fields as numbers. -/
structure ImportedTrade where
  date : String
  pair : String
  lotSize : ℚ
  position : String
  status : String
  pnl : ℚ
  commission : ℚ
  session : String
  bias : String
  confirmSmt : Bool
  newsImpact : String
  emotion : String
  grade : String
  notes : String
deriving DecidableEq

/-- A model-response row satisfies the declared union types on every enum
field. -/
def validImported (t : ImportedTrade) : Bool :=
  ["long", "short"].contains t.position &&
  ["win", "loss", "breakeven"].contains t.status &&
  ["asia", "london", "new york"].contains t.session &&
  ["bullish", "bearish", "ranging"].contains t.bias &&
  ["high", "medium", "low", "none"].contains t.newsImpact &&
  ["A", "B", "C", "D", "F"].contains t.grade

/-- The `AnalysisMetrics` interface (src/index.tsx lines 24-33): every field
is a formatted string except `totalTrades`, a number. -/
structure AnalysisMetrics where
  totalNetPnl : String
  winRate : String
  totalTrades : ℚ
  totalCommissions : String
  totalProfit : String
  totalLoss : String
  mostProfitableSession : String
  bestPerformingGrade : String
deriving DecidableEq

/-- The `ChartData` interface (src/index.tsx lines 35-38). -/
structure ChartData where
  labels : List String
  data : List ℚ
deriving DecidableEq

/-- The `AnalysisResult` interface (src/index.tsx lines 40-46). -/
structure AnalysisResult where
  metrics : AnalysisMetrics
  cumulativePnlData : ChartData
  outcomeDistributionData : ChartData
  sessionPnlData : ChartData
  gradePnlData : ChartData
deriving DecidableEq

/-- The component state of `App` that the handlers read and write: the trade
collection, the displayed analysis result and the busy flag (src/index.tsx
lines 50-53). -/
structure AppState where
  trades : List StoredTrade
  analysisResult : Option AnalysisResult
  loading : Bool
deriving DecidableEq

/-- The empty initial state (`useState` initialisers, src/index.tsx
lines 50-53; `loading` is false once the intro completes). -/
def emptyState : AppState :=
  { trades := [], analysisResult := none, loading := false }

/-! ## Persistence load (src/index.tsx lines 69-76)

The stored blob is read with `localStorage.getItem` and decoded with
`JSON.parse` inside a try/catch; `trades` keeps its initial value `[]` when
the key is absent or the parse throws. The store and the JSON decoder are
external collaborators, so the handler receives the stored blob as an
`Option String` and the decoder as a function whose `Option.none` result
stands for a thrown parse error. -/

/-- The trade collection after the load effect: absent key or failed parse
falls back to the initial empty collection. -/
def loadTrades (stored : Option String)
    (parse : String → Option (List StoredTrade)) : List StoredTrade :=
  match stored with
  | none => []
  | some s =>
    match parse s with
    | none => []
    | some ts => ts

/-! ## Form submission (src/index.tsx lines 489-517)

`handleSubmit` rejects when `form.pair` or `form.pnl` is falsy (the empty
string, for a text input); otherwise it appends one trade built with
`parseFloat(form.lotSize) || 0`, `parseFloat(form.pnl)` and
`parseFloat(form.commission) || 0`. `parseFloat` is modelled as a function
to `Option ℚ` with `Option.none` for NaN, and `x || 0` by `jsOr`. -/

/-- The form state (src/index.tsx lines 490-495): free-text and numeric
inputs are raw strings; each select can only hold one of its declared
option values, so it is modelled by the corresponding inductive. -/
structure TradeForm where
  date : String
  pair : String
  lotSize : String
  position : Position
  status : Status
  pnl : String
  commission : String
  session : Session
  bias : Bias
  confirmSmt : Bool
  newsImpact : NewsImpact
  emotion : String
  grade : Grade
  notes : String
deriving DecidableEq

/-- The JS expression `x || 0` for a number `x`: NaN and 0 are falsy, so
both yield the fallback 0; any other number is returned unchanged. -/
def jsOr (v : Option ℚ) (d : ℚ) : ℚ :=
  match v with
  | none => d
  | some q => if q = 0 then d else q

/-- The id `addTrade` assigns to a form-submitted trade:
`Date.now().toString()` (src/index.tsx line 213). -/
def mkFormId (now : Nat) : String :=
  Nat.repr now

/-- The trade record `handleSubmit` passes to `addTrade` (src/index.tsx
lines 510-515) with the id `addTrade` attaches, given the `parseFloat`
outcomes of the raw inputs. -/
def formTrade (parseNum : String → Option ℚ) (form : TradeForm)
    (now : Nat) : StoredTrade :=
  { id := mkFormId now
    date := form.date
    pair := form.pair
    lotSize := jsOr (parseNum form.lotSize) 0
    position := form.position.toStr
    status := form.status.toStr
    pnl := parseNum form.pnl
    commission := jsOr (parseNum form.commission) 0
    session := form.session.toStr
    bias := form.bias.toStr
    confirmSmt := form.confirmSmt
    newsImpact := form.newsImpact.toStr
    emotion := form.emotion
    grade := form.grade.toStr
    notes := form.notes }

/-- `handleSubmit` (src/index.tsx lines 504-517): reject with an alert when
pair or pnl is empty, otherwise append the new trade to the collection.
Returns the new state and the alert message, if any. -/
def handleSubmit (parseNum : String → Option ℚ) (s : AppState)
    (form : TradeForm) (now : Nat) : AppState × Option String :=
  if form.pair = "" ∨ form.pnl = "" then
    (s, some "Please fill at least Pair and PnL (Rp).")
  else
    ({ s with trades := s.trades ++ [formTrade parseNum form now] }, none)

/-! ## Bulk import (src/index.tsx lines 217-283)

`runAiImport` receives the parsed worksheet rows, guards against an empty
row list, sends at most the first 100 rows to the model, parses the
response, and appends the response rows with generated ids. A raw row is an
open mapping of column names to cell strings; the handler never inspects a
row, it only serializes the sample into the prompt. The model call and the
JSON parse are external, so the handler receives the decoded response as an
`Option (List ImportedTrade)`, `Option.none` standing for a failed call or
an unparseable response. `Date.now()` is evaluated once per response row
inside the id template, so the handler receives a clock giving the sampled
time at each index. -/

/-- A raw worksheet row, as produced by `sheet_to_json`: a mapping of
arbitrary column names to scalar cell values. -/
def RawRow : Type := List (String × String)

instance : DecidableEq RawRow := by
  unfold RawRow
  infer_instance

/-- The bounded sample sent to the model: `excelJson.slice(0, 100)`
(src/index.tsx line 228). -/
def dataSample (excelJson : List RawRow) : List RawRow :=
  excelJson.take 100

/-- The id assigned to the response row at a given index:
the template string of src/index.tsx line 269. -/
def mkImportId (now idx : Nat) : String :=
  "ai-import-" ++ Nat.repr now ++ "-" ++ Nat.repr idx

/-- The stored record for one response row under a given id: every field of
the response row is copied verbatim, with no validation or coercion
(src/index.tsx lines 267-270). -/
def storedOfImported (id : String) (t : ImportedTrade) : StoredTrade :=
  { id := id
    date := t.date
    pair := t.pair
    lotSize := t.lotSize
    position := t.position
    status := t.status
    pnl := some t.pnl
    commission := t.commission
    session := t.session
    bias := t.bias
    confirmSmt := t.confirmSmt
    newsImpact := t.newsImpact
    emotion := t.emotion
    grade := t.grade
    notes := t.notes }

/-- The `importedTrades.map((trade, index) => ...)` step (src/index.tsx
lines 267-270), starting at a given index: each response row gets the id
built from the clock sample at its index. -/
def withImportIds (clock : Nat → Nat) (idx : Nat) :
    List ImportedTrade → List StoredTrade
  | [] => []
  | t :: ts => storedOfImported (mkImportId (clock idx) idx) t ::
      withImportIds clock (idx + 1) ts

/-- The outcome of an import run: the new state, the alert shown, whether
the external model was called, and the row sample that was sent to it. -/
structure ImportStep where
  state : AppState
  alertMsg : Option String
  calledModel : Bool
  sentSample : Option (List RawRow)
deriving DecidableEq

/-- `runAiImport` (src/index.tsx lines 217-283): reject an empty row list
before any external call; otherwise send the bounded sample, and on a
successful response with at least one row append the rows with generated
ids. On a failed call or unparseable response the collection is unchanged. -/
def runAiImport (s : AppState) (excelJson : List RawRow)
    (clock : Nat → Nat) (response : Option (List ImportedTrade)) :
    ImportStep :=
  if excelJson.isEmpty then
    { state := s
      alertMsg := some "The Excel file is empty or could not be read."
      calledModel := false
      sentSample := none }
  else
    match response with
    | none =>
      { state := { s with loading := false }
        alertMsg := some "An error occurred during AI import. Please check the console for details."
        calledModel := true
        sentSample := some (dataSample excelJson) }
    | some importedTrades =>
      if importedTrades.isEmpty then
        { state := { s with loading := false }
          alertMsg := some "AI could not find any valid trades in the file. Please check the file content and try again."
          calledModel := true
          sentSample := some (dataSample excelJson) }
      else
        { state := { s with
            trades := s.trades ++ withImportIds clock 0 importedTrades
            loading := false }
          alertMsg := some ("Successfully imported " ++
            Nat.repr (withImportIds clock 0 importedTrades).length ++
            " trades!")
          calledModel := true
          sentSample := some (dataSample excelJson) }

/-! ## Analysis run (src/index.tsx lines 362-432)

`runAiAnalysis` rejects when fewer than 3 trades are recorded, otherwise
clears the displayed result, calls the model and publishes the parsed
response; on a failed call or unparseable response the cleared result
stays cleared. -/

/-- The outcome of an analysis run: the new state, the alert shown, and
whether the external model was called. -/
structure AnalysisStep where
  state : AppState
  alertMsg : Option String
  calledModel : Bool
deriving DecidableEq

/-- `runAiAnalysis` (src/index.tsx lines 362-432), given the decoded model
response, `Option.none` standing for a failed call or an unparseable
response. -/
def runAiAnalysis (s : AppState) (response : Option AnalysisResult) :
    AnalysisStep :=
  if s.trades.length < 3 then
    { state := s
      alertMsg := some "Please add at least 3 trades to run AI analysis."
      calledModel := false }
  else
    match response with
    | none =>
      { state := { s with analysisResult := none, loading := false }
        alertMsg := some "An error occurred during AI analysis. Please check the console for details."
        calledModel := true }
    | some r =>
      { state := { s with analysisResult := some r, loading := false }
        alertMsg := none
        calledModel := true }

/-! ## Report export (src/index.tsx lines 316-360)

`handleDownload` rejects when no analysis result is displayed; otherwise it
lays the current result and trade collection out across the workbook
sheets. -/

/-- A cell of the summary sheet: the code mixes formatted strings and the
raw `totalTrades` number in the Value column. -/
inductive CellVal
  | str (s : String)
  | num (q : ℚ)
deriving DecidableEq

/-- One label/value sheet built from a chart series, pairing each label
with the data point at its index (`data[index]` is undefined — modelled
`Option.none` — when the data array is shorter). -/
def pairSheetAux (data : List ℚ) (idx : Nat) :
    List String → List (String × Option ℚ)
  | [] => []
  | l :: ls => (l, data[idx]?) :: pairSheetAux data (idx + 1) ls

/-- The label/value sheet of a chart series (src/index.tsx lines 343-357). -/
def pairSheet (cd : ChartData) : List (String × Option ℚ) :=
  pairSheetAux cd.data 0 cd.labels

/-- The exported workbook (src/index.tsx lines 322-358): the metrics
summary, the full trade list, and one sheet per chart series. -/
structure Report where
  summarySheet : List (String × CellVal)
  allTradesSheet : List StoredTrade
  cumulativeSheet : List (String × Option ℚ)
  outcomeSheet : List (String × Option ℚ)
  sessionSheet : List (String × Option ℚ)
  gradeSheet : List (String × Option ℚ)
deriving DecidableEq

/-- The workbook built from an analysis result and the current trade
collection (src/index.tsx lines 322-358). -/
def buildReport (r : AnalysisResult) (trades : List StoredTrade) : Report :=
  { summarySheet :=
      [("Total Net PnL", CellVal.str r.metrics.totalNetPnl),
       ("Total Profit", CellVal.str r.metrics.totalProfit),
       ("Total Loss", CellVal.str r.metrics.totalLoss),
       ("Win Rate", CellVal.str r.metrics.winRate),
       ("Total Trades", CellVal.num r.metrics.totalTrades),
       ("Total Commissions", CellVal.str r.metrics.totalCommissions),
       ("Most Profitable Session", CellVal.str r.metrics.mostProfitableSession),
       ("Best Performing Grade", CellVal.str r.metrics.bestPerformingGrade)]
    allTradesSheet := trades
    cumulativeSheet := pairSheet r.cumulativePnlData
    outcomeSheet := pairSheet r.outcomeDistributionData
    sessionSheet := pairSheet r.sessionPnlData
    gradeSheet := pairSheet r.gradePnlData }

/-- `handleDownload` (src/index.tsx lines 316-360): with no displayed
result, alert and produce no file; otherwise serialize the result and the
trade collection. -/
def handleDownload (s : AppState) : Option Report × Option String :=
  match s.analysisResult with
  | none => (none, some "Please run the AI Analysis first to generate a report.")
  | some r => (some (buildReport r s.trades), none)

/-! ## Journal creation operations and id assignment (src/index.tsx
lines 212-215 and 266-271)

A trade enters the journal either through `addTrade` (form submission),
whose id is `Date.now().toString()`, or through the import append, whose id
is the template `ai-import-` ++ `Date.now()` ++ `-` ++ index. Sequences of
such operations, each carrying the timestamps `Date.now()` produced during
it, model any history of creations. -/

/-- One user-triggered creation operation together with the timestamps the
clock produced during it and the decoded external response it received. -/
inductive JournalOp where
  | formSubmit (now : Nat) (parseNum : String → Option ℚ) (form : TradeForm)
  | importBatch (excelJson : List RawRow) (clock : Nat → Nat)
      (response : Option (List ImportedTrade))

/-- Apply one creation operation to the state. -/
def applyOp (s : AppState) : JournalOp → AppState
  | JournalOp.formSubmit now parseNum form => (handleSubmit parseNum s form now).1
  | JournalOp.importBatch excelJson clock response =>
      (runAiImport s excelJson clock response).state

/-- Run a sequence of creation operations from a starting state. -/
def runOps (s : AppState) : List JournalOp → AppState
  | [] => s
  | op :: ops => runOps (applyOp s op) ops

/-- The trades one operation appends to the journal. -/
def opTrades : JournalOp → List StoredTrade
  | JournalOp.formSubmit now parseNum form =>
      if form.pair = "" ∨ form.pnl = "" then []
      else [formTrade parseNum form now]
  | JournalOp.importBatch excelJson clock response =>
      if excelJson.isEmpty then []
      else
        match response with
        | none => []
        | some rows =>
          if rows.isEmpty then [] else withImportIds clock 0 rows

/-- All trades a sequence of operations appends, in order. -/
def allTrades : List JournalOp → List StoredTrade
  | [] => []
  | op :: ops => opTrades op ++ allTrades ops

/-- The provenance of an assigned id: the form path records the timestamp,
the import path the timestamp sampled at a row index together with that
index. -/
inductive IdKey where
  | form (now : Nat)
  | imported (now : Nat) (idx : Nat)
deriving DecidableEq

/-- The id string the code derives from a provenance key (src/index.tsx
lines 213 and 269). -/
def renderId : IdKey → String
  | IdKey.form now => mkFormId now
  | IdKey.imported now idx => mkImportId now idx

/-- The provenance keys of the ids an import append generates from a given
starting index. -/
def importKeys (clock : Nat → Nat) (idx : Nat) :
    List ImportedTrade → List IdKey
  | [] => []
  | _ :: ts => IdKey.imported (clock idx) idx :: importKeys clock (idx + 1) ts

/-- The provenance keys of the ids one operation assigns. -/
def opKeys : JournalOp → List IdKey
  | JournalOp.formSubmit now _ form =>
      if form.pair = "" ∨ form.pnl = "" then [] else [IdKey.form now]
  | JournalOp.importBatch excelJson clock response =>
      if excelJson.isEmpty then []
      else
        match response with
        | none => []
        | some rows =>
          if rows.isEmpty then [] else importKeys clock 0 rows

/-- The provenance keys of all ids a sequence of operations assigns. -/
def allKeys : List JournalOp → List IdKey
  | [] => []
  | op :: ops => opKeys op ++ allKeys ops

/-! ## Concrete sample values used by witnesses and counterexamples -/

/-- A valid stored trade. -/
def sampleStored : StoredTrade :=
  { id := "1"
    date := "2024-01-01"
    pair := "EURUSD"
    lotSize := 1
    position := "long"
    status := "win"
    pnl := some 100000
    commission := 10000
    session := "london"
    bias := "bullish"
    confirmSmt := false
    newsImpact := "low"
    emotion := ""
    grade := "A"
    notes := "" }

/-- Sample analysis metrics. -/
def sampleMetrics : AnalysisMetrics :=
  { totalNetPnl := "Rp 90000"
    winRate := "100%"
    totalTrades := 3
    totalCommissions := "Rp 10000"
    totalProfit := "Rp 100000"
    totalLoss := "Rp 0"
    mostProfitableSession := "london"
    bestPerformingGrade := "A" }

/-- A sample chart series. -/
def sampleChart : ChartData :=
  { labels := ["2024-01-01"], data := [90000] }

/-- A sample analysis result. -/
def sampleResult : AnalysisResult :=
  { metrics := sampleMetrics
    cumulativePnlData := sampleChart
    outcomeDistributionData := sampleChart
    sessionPnlData := sampleChart
    gradePnlData := sampleChart }

/-- A state with three recorded trades and a displayed analysis result. -/
def analysisReadyState : AppState :=
  { trades := [sampleStored, { sampleStored with id := "2" },
               { sampleStored with id := "3" }]
    analysisResult := some sampleResult
    loading := false }

/-- A sample raw worksheet row. -/
def sampleRow : RawRow :=
  [("profit", "100000")]

/-- A model-response row whose `status` field is not one of the declared
values. -/
def badImported : ImportedTrade :=
  { date := "2024-01-01"
    pair := "EURUSD"
    lotSize := 1
    position := "long"
    status := "banana"
    pnl := 100000
    commission := 0
    session := "london"
    bias := "bullish"
    confirmSmt := false
    newsImpact := "low"
    emotion := ""
    grade := "A"
    notes := "" }

/-- A model-response row with every enum field among its declared values. -/
def goodImported : ImportedTrade :=
  { badImported with status := "win" }

/-- A filled form whose lot size and commission inputs are left blank. -/
def sampleForm : TradeForm :=
  { date := "2024-01-01"
    pair := "EURUSD"
    lotSize := ""
    position := Position.long
    status := Status.win
    pnl := "100000"
    commission := ""
    session := Session.london
    bias := Bias.ranging
    confirmSmt := false
    newsImpact := NewsImpact.low
    emotion := ""
    grade := Grade.C
    notes := "" }

/-- A parse function under which every raw numeric input is NaN. -/
def pnNone : String → Option ℚ := fun _ => none

/-- Two form submissions whose `Date.now()` calls fall in the same
millisecond. -/
def dupOps : List JournalOp :=
  [JournalOp.formSubmit 5 pnNone sampleForm,
   JournalOp.formSubmit 5 pnNone sampleForm]

/-- Two form submissions with distinct timestamps. -/
def okOps : List JournalOp :=
  [JournalOp.formSubmit 5 pnNone sampleForm,
   JournalOp.formSubmit 6 pnNone sampleForm]

end JurnalAI

namespace JurnalAI

/-- C1 counterexample: for the single trade with pnl 100000 and commission
10000, totalNetPnl is 90000 while totalProfit − totalLoss is 100000, so the
claimed identity totalNetPnl = totalProfit − totalLoss fails. -/
theorem c1_counterexample :
    ¬ (totalNetPnl [sampleTrade] =
        totalProfit [sampleTrade] - totalLoss [sampleTrade]) := by
  norm_num [totalNetPnl, totalProfit, totalLoss, sampleTrade,
    List.filter_cons, List.filter_nil]

/-- C1 (amended): for every trade collection, totalNetPnl equals
totalProfit − totalLoss − totalCommissions, with totalLoss reported as a
positive magnitude; the claimed identity omitted the commission term. -/
theorem c1_totalNetPnl_decomposition (ts : List Trade) :
    totalNetPnl ts = totalProfit ts - totalLoss ts - totalCommissions ts := by
  induction ts with
  | nil => simp [totalNetPnl, totalProfit, totalLoss, totalCommissions]
  | cons t ts ih =>
    simp only [totalNetPnl, totalProfit, totalLoss, totalCommissions,
      List.map_cons, List.sum_cons, List.filter_cons, decide_eq_true_eq]
      at ih ⊢
    split_ifs with h1 h2 <;>
      (try simp only [List.map_cons, List.sum_cons]) <;> linarith

/-- C4: with fewer than 3 recorded trades the analysis trigger is rejected
with a user-facing message before any computation, the external model is not
called, and the state (trade collection and displayed result) is unchanged. -/
theorem c4_below_minimum_rejected (s : AppState)
    (response : Option AnalysisResult) (h : s.trades.length < 3) :
    (runAiAnalysis s response).state = s ∧
    (runAiAnalysis s response).alertMsg =
      some "Please add at least 3 trades to run AI analysis." ∧
    (runAiAnalysis s response).calledModel = false := by
  unfold runAiAnalysis
  rw [if_pos h]
  exact ⟨rfl, rfl, rfl⟩

/-- C4 witness: the guard fires on the empty journal. -/
theorem c4_below_minimum_rejected_witness :
    emptyState.trades.length < 3 ∧
    ((runAiAnalysis emptyState none).state = emptyState ∧
     (runAiAnalysis emptyState none).alertMsg =
       some "Please add at least 3 trades to run AI analysis." ∧
     (runAiAnalysis emptyState none).calledModel = false) :=
  ⟨by decide, c4_below_minimum_rejected emptyState none (by decide)⟩

/-- C6: when the analysis run proceeds (at least 3 trades) and the external
call fails or its response is unparseable, no result is published and the
previously displayed result is cleared: the displayed result is absent
afterwards, while the trade collection is untouched. -/
theorem c6_failed_run_clears_result (s : AppState)
    (h : 3 ≤ s.trades.length) :
    (runAiAnalysis s none).state.analysisResult = none ∧
    (runAiAnalysis s none).state.trades = s.trades := by
  unfold runAiAnalysis
  rw [if_neg (Nat.not_lt.mpr h)]
  exact ⟨rfl, rfl⟩

/-- C6 witness: a failed run on a three-trade state with a previously
displayed result leaves no displayed result. -/
theorem c6_failed_run_clears_result_witness :
    3 ≤ analysisReadyState.trades.length ∧
    ((runAiAnalysis analysisReadyState none).state.analysisResult = none ∧
     (runAiAnalysis analysisReadyState none).state.trades =
       analysisReadyState.trades) :=
  ⟨by decide, c6_failed_run_clears_result analysisReadyState (by decide)⟩

/-- C5: an import invocation with an empty raw row sequence is rejected with
the user-facing empty-file message, performs no external call, sends no
sample, and leaves the whole state (in particular the trade collection)
unchanged. -/
theorem c5_empty_import_rejected (s : AppState) (clock : Nat → Nat)
    (response : Option (List ImportedTrade)) :
    runAiImport s [] clock response =
      { state := s
        alertMsg := some "The Excel file is empty or could not be read."
        calledModel := false
        sentSample := none } :=
  rfl

/-- C7: whenever the import proceeds, the sample sent to the model is
exactly the first 100 raw rows in input order: it never has more than 100
rows, agrees with the input at every index below 100, and contains nothing
from index 100 onwards. -/
theorem c7_sample_is_first_100_rows (s : AppState) (rows : List RawRow)
    (clock : Nat → Nat) (response : Option (List ImportedTrade))
    (h : rows ≠ []) :
    (runAiImport s rows clock response).sentSample =
      some (rows.take 100) ∧
    (rows.take 100).length ≤ 100 ∧
    (∀ i : Nat, i < 100 → (rows.take 100)[i]? = rows[i]?) ∧
    (∀ i : Nat, 100 ≤ i → (rows.take 100)[i]? = none) := by
  refine ⟨?_, ?_, ?_, ?_⟩
  · unfold runAiImport dataSample
    rw [if_neg (by simpa [List.isEmpty_iff] using h)]
    cases response with
    | none => rfl
    | some l =>
      cases l with
      | nil => rfl
      | cons a as => rfl
  · simp [List.length_take]
  · intro i hi
    rw [List.getElem?_take]
    simp [hi]
  · intro i hi
    exact List.getElem?_eq_none
      (le_trans (by simp [List.length_take]) hi)

/-- C7 witness: on a one-row input the sample is that row. -/
theorem c7_sample_is_first_100_rows_witness :
    (runAiImport emptyState [sampleRow] (fun _ => 0) none).sentSample =
      some ([sampleRow].take 100) :=
  (c7_sample_is_first_100_rows emptyState [sampleRow] (fun _ => 0) none
    (List.cons_ne_nil _ _)).1

/-- C8: loading the persisted collection falls back to the empty collection
both when the stored value is absent and when it fails to parse. -/
theorem c8_load_falls_back_to_empty
    (parse : String → Option (List StoredTrade)) :
    loadTrades none parse = [] ∧
    ∀ s : String, parse s = none → loadTrades (some s) parse = [] := by
  refine ⟨rfl, ?_⟩
  intro s hs
  simp [loadTrades, hs]

/-- C8 witness: a present but unparseable blob loads as the empty
collection. -/
theorem c8_load_falls_back_to_empty_witness :
    loadTrades (some "corrupt") (fun _ => none) = [] :=
  (c8_load_falls_back_to_empty (fun _ => none)).2 "corrupt" rfl

/-- C9: an accepted form submission appends exactly one trade, whose
lotSize is 0 when the raw lot-size input fails to parse (parseFloat gives
NaN, in particular on the empty input) and whose commission is 0 when the
raw commission input fails to parse. -/
theorem c9_unparseable_numerics_default_to_zero
    (parseNum : String → Option ℚ) (s : AppState) (form : TradeForm)
    (now : Nat) (hpair : form.pair ≠ "") (hpnl : form.pnl ≠ "") :
    (handleSubmit parseNum s form now).1.trades =
      s.trades ++ [formTrade parseNum form now] ∧
    (parseNum form.lotSize = none →
      (formTrade parseNum form now).lotSize = 0) ∧
    (parseNum form.commission = none →
      (formTrade parseNum form now).commission = 0) := by
  refine ⟨?_, ?_, ?_⟩
  · unfold handleSubmit
    rw [if_neg (by simp [hpair, hpnl])]
  · intro h
    simp [formTrade, jsOr, h]
  · intro h
    simp [formTrade, jsOr, h]

/-- C9 witness: with blank lot-size and commission inputs (parseFloat NaN)
the stored trade carries 0 for both. -/
theorem c9_unparseable_numerics_default_to_zero_witness :
    (formTrade (fun _ => (none : Option ℚ)) sampleForm 7).lotSize = 0 ∧
    (formTrade (fun _ => (none : Option ℚ)) sampleForm 7).commission = 0 :=
  ⟨(c9_unparseable_numerics_default_to_zero (fun _ => none) emptyState
      sampleForm 7 (by decide) (by decide)).2.1 rfl,
   (c9_unparseable_numerics_default_to_zero (fun _ => none) emptyState
      sampleForm 7 (by decide) (by decide)).2.2 rfl⟩

/-- C10: with no displayed analysis result the export is rejected with the
message asking to run the analysis first and no report is produced; with a
displayed result the export serializes exactly that result together with
the current trade collection. -/
theorem c10_export_requires_result (s : AppState) :
    (s.analysisResult = none →
      handleDownload s =
        (none, some "Please run the AI Analysis first to generate a report.")) ∧
    (∀ r : AnalysisResult, s.analysisResult = some r →
      handleDownload s = (some (buildReport r s.trades), none)) := by
  constructor
  · intro h
    unfold handleDownload
    rw [h]
  · intro r h
    unfold handleDownload
    rw [h]

/-- C10 witness: on the initial state (no result) the export is rejected. -/
theorem c10_export_requires_result_witness :
    handleDownload emptyState =
      (none, some "Please run the AI Analysis first to generate a report.") :=
  (c10_export_requires_result emptyState).1 rfl

/-- The form select for `position` only stores declared values. -/
theorem position_toStr_declared (p : Position) :
    (["long", "short"].contains p.toStr) = true := by
  cases p <;> rfl

/-- The form select for `status` only stores declared values. -/
theorem status_toStr_declared (st : Status) :
    (["win", "loss", "breakeven"].contains st.toStr) = true := by
  cases st <;> rfl

/-- The form select for `session` only stores declared values. -/
theorem session_toStr_declared (se : Session) :
    (["asia", "london", "new york"].contains se.toStr) = true := by
  cases se <;> rfl

/-- The form select for `bias` only stores declared values. -/
theorem bias_toStr_declared (b : Bias) :
    (["bullish", "bearish", "ranging"].contains b.toStr) = true := by
  cases b <;> rfl

/-- The form select for `newsImpact` only stores declared values. -/
theorem newsImpact_toStr_declared (n : NewsImpact) :
    (["high", "medium", "low", "none"].contains n.toStr) = true := by
  cases n <;> rfl

/-- The form select for `grade` only stores declared values. -/
theorem grade_toStr_declared (g : Grade) :
    (["A", "B", "C", "D", "F"].contains g.toStr) = true := by
  cases g <;> rfl

/-- A stored import row is enum-valid exactly when the response row is:
the import path copies the enum strings verbatim. -/
theorem validEnums_storedOfImported (id : String) (t : ImportedTrade) :
    validEnums (storedOfImported id t) = validImported t :=
  rfl

/-- Every trade produced by the id-assignment step of an import is
enum-valid provided every response row is. -/
theorem withImportIds_valid (clock : Nat → Nat) (ts : List ImportedTrade) :
    ∀ idx : Nat, (∀ t ∈ ts, validImported t = true) →
      ∀ st ∈ withImportIds clock idx ts, validEnums st = true := by
  induction ts with
  | nil =>
    intro idx _ st hst
    simp [withImportIds] at hst
  | cons t ts ih =>
    intro idx hvalid st hst
    simp only [withImportIds, List.mem_cons] at hst
    rcases hst with rfl | hst
    · rw [validEnums_storedOfImported]
      exact hvalid t (List.mem_cons_self t ts)
    · exact ih (idx + 1)
        (fun u hu => hvalid u (List.mem_cons_of_mem t hu)) st hst

/-- C2 counterexample: an import whose model response carries the
undeclared status value "banana" stores that value verbatim in the journal;
the resulting trade violates the enum invariant, so invalid values are not
coerced to a default. -/
theorem c2_counterexample :
    (runAiImport emptyState [sampleRow] (fun _ => 0)
        (some [badImported])).state.trades =
      [storedOfImported (mkImportId 0 0) badImported] ∧
    validEnums (storedOfImported (mkImportId 0 0) badImported) = false := by
  exact ⟨rfl, rfl⟩

/-- C2 (amended): a trade created by form submission always holds declared
enum values; a trade created by bulk import stores the enum strings of the
model response verbatim, with no coercion applied by the code, so imported
trades hold declared values exactly when every response row already does. -/
theorem c2_enum_validity (parseNum : String → Option ℚ) (form : TradeForm)
    (now : Nat) :
    validEnums (formTrade parseNum form now) = true ∧
    (∀ (id : String) (t : ImportedTrade),
      (storedOfImported id t).position = t.position ∧
      (storedOfImported id t).status = t.status ∧
      (storedOfImported id t).session = t.session ∧
      (storedOfImported id t).bias = t.bias ∧
      (storedOfImported id t).newsImpact = t.newsImpact ∧
      (storedOfImported id t).grade = t.grade) ∧
    (∀ (clock : Nat → Nat) (idx : Nat) (ts : List ImportedTrade),
      (∀ t ∈ ts, validImported t = true) →
      ∀ st ∈ withImportIds clock idx ts, validEnums st = true) := by
  refine ⟨?_, ?_, ?_⟩
  · show (["long", "short"].contains form.position.toStr &&
      ["win", "loss", "breakeven"].contains form.status.toStr &&
      ["asia", "london", "new york"].contains form.session.toStr &&
      ["bullish", "bearish", "ranging"].contains form.bias.toStr &&
      ["high", "medium", "low", "none"].contains form.newsImpact.toStr &&
      ["A", "B", "C", "D", "F"].contains form.grade.toStr) = true
    rw [position_toStr_declared, status_toStr_declared,
      session_toStr_declared, bias_toStr_declared,
      newsImpact_toStr_declared, grade_toStr_declared]
    rfl
  · intro id t
    exact ⟨rfl, rfl, rfl, rfl, rfl, rfl⟩
  · intro clock idx ts hvalid st hst
    exact withImportIds_valid clock ts idx hvalid st hst

/-- The fuelled digit printer of core Lean agrees with the mathematical
digit expansion whenever the fuel covers the number. -/
theorem toDigitsCore_eq_digits :
    ∀ (fuel n : Nat) (ds : List Char), 0 < n → n ≤ fuel →
      Nat.toDigitsCore 10 fuel n ds =
        ((Nat.digits 10 n).map Nat.digitChar).reverse ++ ds := by
  intro fuel
  induction fuel with
  | zero =>
    intro n ds hn hle
    exact absurd (Nat.lt_of_lt_of_le hn hle) (lt_irrefl 0)
  | succ fuel ih =>
    intro n ds hn hle
    simp only [Nat.toDigitsCore]
    by_cases h : n / 10 = 0
    · rw [if_pos h]
      rw [Nat.digits_def' (by norm_num : (1 : ℕ) < 10) hn, h, Nat.digits_zero]
      simp
    · rw [if_neg h]
      have hn' : 0 < n / 10 := Nat.pos_of_ne_zero h
      have hlt : n / 10 < n := Nat.div_lt_self hn (by norm_num)
      rw [ih (n / 10) (Nat.digitChar (n % 10) :: ds) hn' (by omega)]
      rw [Nat.digits_def' (by norm_num : (1 : ℕ) < 10) hn]
      simp [List.reverse_cons, List.append_assoc]

/-- For a positive number, the printed digit list is the reversed digit
expansion rendered through `Nat.digitChar`. -/
theorem toDigits_eq_digits (n : Nat) (hn : 0 < n) :
    Nat.toDigits 10 n = ((Nat.digits 10 n).map Nat.digitChar).reverse := by
  unfold Nat.toDigits
  rw [toDigitsCore_eq_digits (n + 1) n [] hn (by omega), List.append_nil]

/-- `Nat.digitChar` is injective below 10. -/
theorem digitChar_inj_below_ten :
    ∀ a : Nat, a < 10 → ∀ b : Nat, b < 10 →
      Nat.digitChar a = Nat.digitChar b → a = b := by
  decide

/-- `Nat.digitChar` of a digit below 10 is a decimal digit character. -/
theorem digitChar_isDigit : ∀ a : Nat, a < 10 → (Nat.digitChar a).isDigit = true := by
  decide

/-- Mapping `Nat.digitChar` over lists of digits below 10 is injective. -/
theorem map_digitChar_inj :
    ∀ l₁ l₂ : List Nat, (∀ d ∈ l₁, d < 10) → (∀ d ∈ l₂, d < 10) →
      l₁.map Nat.digitChar = l₂.map Nat.digitChar → l₁ = l₂ := by
  intro l₁
  induction l₁ with
  | nil =>
    intro l₂ _ _ h
    cases l₂ with
    | nil => rfl
    | cons b bs => simp at h
  | cons a as ih =>
    intro l₂ h₁ h₂ h
    cases l₂ with
    | nil => simp at h
    | cons b bs =>
      simp only [List.map_cons, List.cons.injEq] at h
      have ha : a = b :=
        digitChar_inj_below_ten a (h₁ a (List.mem_cons_self a as))
          b (h₂ b (List.mem_cons_self b bs)) h.1
      have has : as = bs :=
        ih bs (fun d hd => h₁ d (List.mem_cons_of_mem a hd))
          (fun d hd => h₂ d (List.mem_cons_of_mem b hd)) h.2
      rw [ha, has]

/-- Only 0 prints as the single character 0. -/
theorem toDigits_singleton_zero (n : Nat)
    (h : Nat.toDigits 10 n = ['0']) : n = 0 := by
  by_contra hne
  have hn : 0 < n := Nat.pos_of_ne_zero hne
  rw [toDigits_eq_digits n hn] at h
  have h2 : (Nat.digits 10 n).map Nat.digitChar = ['0'] := by
    have := congrArg List.reverse h
    simpa using this
  cases hd : Nat.digits 10 n with
  | nil =>
    rw [hd] at h2
    simp at h2
  | cons d ds =>
    rw [hd] at h2
    cases ds with
    | nil =>
      simp only [List.map_cons, List.map_nil, List.cons.injEq] at h2
      have hdlt : d < 10 := Nat.digits_lt_base (by norm_num)
        (by rw [hd]; exact List.mem_cons_self d [])
      have hd0 : d = 0 := by
        refine digitChar_inj_below_ten d hdlt 0 (by norm_num) ?_
        rw [h2.1]
        rfl
      have hof := Nat.ofDigits_digits 10 n
      rw [hd, hd0] at hof
      simp [Nat.ofDigits_cons, Nat.ofDigits_nil] at hof
      exact hne hof.symm
    | cons e es => simp at h2

/-- The decimal printer on digit lists is injective. -/
theorem toDigits_ten_inj (m n : Nat)
    (h : Nat.toDigits 10 m = Nat.toDigits 10 n) : m = n := by
  rcases Nat.eq_zero_or_pos m with hm | hm
  · subst hm
    exact (toDigits_singleton_zero n h.symm).symm
  · rcases Nat.eq_zero_or_pos n with hn | hn
    · subst hn
      exact toDigits_singleton_zero m h
    · rw [toDigits_eq_digits m hm, toDigits_eq_digits n hn] at h
      have h2 := List.reverse_injective h
      have h3 := map_digitChar_inj (Nat.digits 10 m) (Nat.digits 10 n)
        (fun d hd => Nat.digits_lt_base (by norm_num) hd)
        (fun d hd => Nat.digits_lt_base (by norm_num) hd) h2
      have h4 := congrArg (Nat.ofDigits 10) h3
      rwa [Nat.ofDigits_digits, Nat.ofDigits_digits] at h4

/-- `Nat.repr` (the implementation of `Date.now().toString()` digits) is
injective. -/
theorem repr_ten_inj (m n : Nat) (h : Nat.repr m = Nat.repr n) : m = n :=
  toDigits_ten_inj m n (congrArg String.data h)

/-- Every character of a printed natural number is a decimal digit. -/
theorem toDigits_all_isDigit (n : Nat) :
    ∀ c ∈ Nat.toDigits 10 n, c.isDigit = true := by
  rcases Nat.eq_zero_or_pos n with hn | hn
  · subst hn
    intro c hc
    have h0 : Nat.toDigits 10 0 = ['0'] := rfl
    rw [h0, List.mem_singleton] at hc
    subst hc
    decide
  · intro c hc
    rw [toDigits_eq_digits n hn, List.mem_reverse] at hc
    rcases List.mem_map.mp hc with ⟨d, hd, rfl⟩
    exact digitChar_isDigit d (Nat.digits_lt_base (by norm_num) hd)

/-- The character data of a form id. -/
theorem mkFormId_data (now : Nat) :
    (mkFormId now).data = Nat.toDigits 10 now := rfl

/-- The character data of an import id. -/
theorem mkImportId_data (now idx : Nat) :
    (mkImportId now idx).data =
      "ai-import-".data ++
        (Nat.toDigits 10 now ++ '-' :: Nat.toDigits 10 idx) := by
  show ((("ai-import-".data ++ (Nat.repr now).data) ++ "-".data) ++
      (Nat.repr idx).data) = _
  rw [List.append_assoc, List.append_assoc]
  rfl

/-- Splitting around the first dash: two all-digit runs followed by a dash
and a remainder coincide componentwise. -/
theorem digit_dash_split :
    ∀ a b u v : List Char, (∀ c ∈ a, c.isDigit = true) →
      (∀ c ∈ b, c.isDigit = true) →
      a ++ '-' :: u = b ++ '-' :: v → a = b ∧ u = v := by
  intro a
  induction a with
  | nil =>
    intro b u v _ hb h
    cases b with
    | nil => simpa using h
    | cons c bs =>
      exfalso
      simp only [List.nil_append, List.cons_append, List.cons.injEq] at h
      have hdig := hb c (List.mem_cons_self c bs)
      rw [← h.1] at hdig
      exact absurd hdig (by decide)
  | cons c as ih =>
    intro b u v ha hb h
    cases b with
    | nil =>
      exfalso
      simp only [List.nil_append, List.cons_append, List.cons.injEq] at h
      have hdig := ha c (List.mem_cons_self c as)
      rw [h.1] at hdig
      exact absurd hdig (by decide)
    | cons d bs =>
      simp only [List.cons_append, List.cons.injEq] at h
      obtain ⟨hab, huv⟩ := ih bs u v
        (fun x hx => ha x (List.mem_cons_of_mem c hx))
        (fun x hx => hb x (List.mem_cons_of_mem d hx)) h.2
      exact ⟨by rw [h.1, hab], huv⟩

/-- A form id is never equal to an import id: form ids consist of decimal
digits while import ids start with a letter. -/
theorem mkFormId_ne_mkImportId (n m i : Nat) :
    mkFormId n ≠ mkImportId m i := by
  intro h
  have h0 := congrArg String.data h
  rw [mkFormId_data, mkImportId_data] at h0
  have ha : ('a' : Char) ∈ Nat.toDigits 10 n := by
    rw [h0]
    exact List.mem_append_left _ (by decide)
  exact absurd (toDigits_all_isDigit n 'a' ha) (by decide)

/-- The id rendering is injective on provenance keys. -/
theorem renderId_inj (k k' : IdKey) (h : renderId k = renderId k') :
    k = k' := by
  cases k with
  | form n =>
    cases k' with
    | form n' => rw [repr_ten_inj n n' h]
    | imported n' i' => exact absurd h (mkFormId_ne_mkImportId n n' i')
  | imported n i =>
    cases k' with
    | form n' => exact absurd h.symm (mkFormId_ne_mkImportId n' n i)
    | imported n' i' =>
      have h0 : (mkImportId n i).data = (mkImportId n' i').data :=
        congrArg String.data h
      rw [mkImportId_data, mkImportId_data] at h0
      have h1 := List.append_cancel_left h0
      obtain ⟨hn, hi⟩ := digit_dash_split _ _ _ _
        (toDigits_all_isDigit n) (toDigits_all_isDigit n') h1
      rw [toDigits_ten_inj n n' hn, toDigits_ten_inj i i' hi]

/-- Every key generated by an import batch carries an index at or above
the starting index. -/
theorem importKeys_mem (clock : Nat → Nat) :
    ∀ (ts : List ImportedTrade) (idx : Nat) (k : IdKey),
      k ∈ importKeys clock idx ts →
      ∃ j : Nat, idx ≤ j ∧ k = IdKey.imported (clock j) j := by
  intro ts
  induction ts with
  | nil =>
    intro idx k hk
    simp [importKeys] at hk
  | cons t ts ih =>
    intro idx k hk
    simp only [importKeys, List.mem_cons] at hk
    rcases hk with rfl | hk
    · exact ⟨idx, le_refl idx, rfl⟩
    · obtain ⟨j, hj, hk⟩ := ih (idx + 1) k hk
      exact ⟨j, by omega, hk⟩

/-- The keys generated inside one import batch are pairwise distinct: the
row index is part of the key. -/
theorem importKeys_pairwise (clock : Nat → Nat) :
    ∀ (ts : List ImportedTrade) (idx : Nat),
      (importKeys clock idx ts).Pairwise (· ≠ ·) := by
  intro ts
  induction ts with
  | nil =>
    intro idx
    simp [importKeys]
  | cons t ts ih =>
    intro idx
    simp only [importKeys]
    refine List.Pairwise.cons ?_ (ih (idx + 1))
    intro k hk
    obtain ⟨j, hj, rfl⟩ := importKeys_mem clock ts (idx + 1) k hk
    intro hea
    injection hea with h1 h2
    omega

/-- The keys one operation assigns are pairwise distinct. -/
theorem opKeys_pairwise (op : JournalOp) : (opKeys op).Pairwise (· ≠ ·) := by
  cases op with
  | formSubmit now parseNum form =>
    by_cases h : form.pair = "" ∨ form.pnl = ""
    · simp [opKeys, h]
    · simp [opKeys, h]
  | importBatch excelJson clock response =>
    rcases excelJson with _ | ⟨r, rs⟩
    · simp [opKeys]
    · rcases response with _ | rows
      · simp [opKeys]
      · rcases rows with _ | ⟨t, ts⟩
        · simp [opKeys]
        · simpa [opKeys] using importKeys_pairwise clock (t :: ts) 0

/-- The ids of an import append are the renderings of its keys. -/
theorem withImportIds_ids (clock : Nat → Nat) :
    ∀ (ts : List ImportedTrade) (idx : Nat),
      (withImportIds clock idx ts).map StoredTrade.id =
        (importKeys clock idx ts).map renderId := by
  intro ts
  induction ts with
  | nil => intro idx; rfl
  | cons t ts ih =>
    intro idx
    simp only [withImportIds, importKeys, List.map_cons]
    rw [ih (idx + 1)]
    rfl

/-- The ids one operation appends are the renderings of its keys. -/
theorem opTrades_ids (op : JournalOp) :
    (opTrades op).map StoredTrade.id = (opKeys op).map renderId := by
  cases op with
  | formSubmit now parseNum form =>
    by_cases h : form.pair = "" ∨ form.pnl = ""
    · simp [opTrades, opKeys, h]
    · simp [opTrades, opKeys, h]
      rfl
  | importBatch excelJson clock response =>
    rcases excelJson with _ | ⟨r, rs⟩
    · rfl
    · rcases response with _ | rows
      · rfl
      · rcases rows with _ | ⟨t, ts⟩
        · rfl
        · exact withImportIds_ids clock (t :: ts) 0

/-- One operation appends exactly its trades to the collection. -/
theorem applyOp_trades (s : AppState) (op : JournalOp) :
    (applyOp s op).trades = s.trades ++ opTrades op := by
  cases op with
  | formSubmit now parseNum form =>
    by_cases h : form.pair = "" ∨ form.pnl = ""
    · simp [applyOp, handleSubmit, opTrades, h]
    · simp [applyOp, handleSubmit, opTrades, h]
  | importBatch excelJson clock response =>
    rcases excelJson with _ | ⟨r, rs⟩
    · simp [applyOp, runAiImport, opTrades]
    · rcases response with _ | rows
      · simp [applyOp, runAiImport, opTrades]
      · rcases rows with _ | ⟨t, ts⟩
        · simp [applyOp, runAiImport, opTrades, withImportIds]
        · simp [applyOp, runAiImport, opTrades]

/-- Running a sequence of operations appends all their trades in order. -/
theorem runOps_trades (ops : List JournalOp) :
    ∀ s : AppState, (runOps s ops).trades = s.trades ++ allTrades ops := by
  induction ops with
  | nil =>
    intro s
    simp [runOps, allTrades]
  | cons op ops ih =>
    intro s
    simp only [runOps, allTrades]
    rw [ih (applyOp s op), applyOp_trades, List.append_assoc]

/-- The ids appended by a sequence of operations are the renderings of all
their keys. -/
theorem allTrades_ids (ops : List JournalOp) :
    (allTrades ops).map StoredTrade.id = (allKeys ops).map renderId := by
  induction ops with
  | nil => rfl
  | cons op ops ih =>
    simp only [allTrades, allKeys, List.map_append]
    rw [opTrades_ids, ih]

/-- C3 counterexample: two form submissions whose `Date.now()` values fall
in the same millisecond produce the journal ["5", "5"] of ids — a duplicate
id across operations, so id uniqueness as claimed fails. -/
theorem c3_counterexample :
    (runOps emptyState dupOps).trades.map StoredTrade.id = ["5", "5"] ∧
    ¬ ((runOps emptyState dupOps).trades.map StoredTrade.id).Pairwise
        (· ≠ ·) := by
  decide

/-- C3 (amended): ids are pairwise distinct whenever the provenance keys of
all creation operations are pairwise distinct — in particular a single
batch of imports always yields distinct keys (the row index is part of the
id), the id rendering is injective on keys, and a form id never collides
with an imported id; but two form submissions sharing a `Date.now()`
millisecond, or two import rows from different batches sharing both
millisecond and row index, receive identical ids. -/
theorem c3_id_uniqueness (ops : List JournalOp)
    (h : (allKeys ops).Pairwise (· ≠ ·)) :
    ((runOps emptyState ops).trades.map StoredTrade.id).Pairwise (· ≠ ·) ∧
    (∀ k k' : IdKey, renderId k = renderId k' → k = k') ∧
    (∀ op : JournalOp, (opKeys op).Pairwise (· ≠ ·)) := by
  refine ⟨?_, renderId_inj, opKeys_pairwise⟩
  rw [runOps_trades ops emptyState]
  show ((allTrades ops).map StoredTrade.id).Pairwise (· ≠ ·)
  rw [allTrades_ids]
  exact h.map renderId fun a b hab hr => hab (renderId_inj a b hr)

/-- C3 witness: two form submissions at distinct milliseconds have
pairwise distinct keys, hence pairwise distinct ids. -/
theorem c3_id_uniqueness_witness :
    (allKeys okOps).Pairwise (· ≠ ·) ∧
    (((runOps emptyState okOps).trades.map StoredTrade.id).Pairwise (· ≠ ·) ∧
     (∀ k k' : IdKey, renderId k = renderId k' → k = k') ∧
     (∀ op : JournalOp, (opKeys op).Pairwise (· ≠ ·))) :=
  ⟨by decide, c3_id_uniqueness okOps (by decide)⟩

/-- C2 witness: a valid response row is stored enum-valid. -/
theorem c2_enum_validity_witness :
    validEnums (storedOfImported (mkImportId 0 0) goodImported) = true :=
  (c2_enum_validity (fun _ => none) sampleForm 7).2.2 (fun _ => 0) 0
    [goodImported]
    (by
      intro t ht
      rw [List.mem_singleton] at ht
      subst ht
      rfl)
    (storedOfImported (mkImportId 0 0) goodImported)
    (by simp [withImportIds])

end JurnalAI
